import Mathlib

/-
Shallow embedding of the J.A.R.V.I.S. hardware-integration pipeline:
  src/hardware_integration/dpi/dpi_engine.c (+ dpi_engine.h)
  src/hardware_integration/packet_capture/packet_capture.c (+ packet_capture.h)

Payloads are byte lists (List Nat, each byte < 256 in practice; the code
never depends on the bound).  C structs become Lean structures; machine
integers are Nat (the code keeps every counter far below its width, and
where a wrap could matter it is noted at the definition).  Fallible calls
return Option or pair an Int status.  External library calls (regcomp)
are passed in as explicit boolean outcomes.
-/

namespace Jarvis

/-! ### Byte-string helpers -/

/-- Bytes of an ASCII string literal, used for the C string constants. -/
def strBytes (s : String) : List Nat := s.toList.map Char.toNat

/-- Model of strncmp(data, pat, strlen(pat)) == 0 for a NUL-free pattern:
the pattern is a leading segment of the data.  (The C code may read past
a buffer shorter than the pattern; every call site guards the length.) -/
def bytesAt (pat data : List Nat) : Bool := pat.isPrefixOf data

/-- ASCII space. -/
def SP : Nat := 32

/-- Model of isdigit on a byte. -/
def isDigitByte (b : Nat) : Bool := 48 ≤ b && b ≤ 57

/-- Model of strstr(data, pat) != NULL for a NUL-free pattern: some
suffix of the data starts with the pattern. -/
def containsBytes (pat : List Nat) : List Nat → Bool
  | [] => pat.isEmpty
  | b :: rest => pat.isPrefixOf (b :: rest) || containsBytes pat rest

/-! ### Protocol and rule enums (dpi_engine.h) -/

inductive Protocol where
  | unknown | http | https | dns | smtp | smtps | ftp | ftps
  | smb | ssh | telnet | snmp | quic | dtls | mqtt | coap
  deriving DecidableEq, Repr

inductive SessionState where
  | snew | established | closing | closed | serror
  deriving DecidableEq, Repr

inductive RuleType where
  | regex | snort | yara | content | behavioral
  deriving DecidableEq, Repr

inductive TlsMode where
  | disabled | passthrough | decrypt | inspect
  deriving DecidableEq, Repr

def DPI_MAX_RULES : Nat := 10000
def DPI_MAX_ALERTS : Nat := 1000000

/-! ### Protocol dissectors (dpi_engine.c, lines 119-288)

Each C dissector returns a protocol tag plus an out-parameter holding a
malloc'd parsed record; we return the protocol tag together with the
parsed record (allocation is assumed to succeed).
-/

/-- dpi_http_data_t (method / status_code / is_request; the uri, host,
user-agent and content_length fields are never written by the code and
stay zero, so they are omitted). -/
structure HttpData where
  method : List Nat
  status_code : Nat
  is_request : Bool
  deriving DecidableEq, Repr

/-- The seven request-method prefixes tested by dissect_http, in source
order ("GET ", "POST ", "PUT ", "DELETE ", "HEAD ", "OPTIONS ", "PATCH "). -/
def httpMethods : List (List Nat) :=
  [strBytes "GET ", strBytes "POST ", strBytes "PUT ", strBytes "DELETE ",
   strBytes "HEAD ", strBytes "OPTIONS ", strBytes "PATCH "]

/-- Index of the first space byte in the payload: model of
strchr((const char *)data, ' ') when the space lies inside the payload
(in every reachable call the match guarantees it). -/
def findSpace : List Nat → Option Nat
  | [] => none
  | b :: rest => if b == SP then some 0 else (findSpace rest).map (· + 1)

/-- Method extraction of dissect_http: copy the bytes before the first
space if that segment fits the 16-byte method field. -/
def extractMethod (data : List Nat) : List Nat :=
  match findSpace data with
  | some i => if i < 16 then data.take i else []
  | none => []

/-- atoi on the bytes following the first space (status-code extraction
of dissect_http): skip blanks, optional sign, then leading digits. -/
def atoiBytes (data : List Nat) : Int :=
  let rest := data.dropWhile (fun b => b == SP || b == 9)
  match rest with
  | 45 :: ds => -(Int.ofNat ((ds.takeWhile isDigitByte).foldl (fun a b => a * 10 + (b - 48)) 0))
  | 43 :: ds => Int.ofNat ((ds.takeWhile isDigitByte).foldl (fun a b => a * 10 + (b - 48)) 0)
  | ds => Int.ofNat ((ds.takeWhile isDigitByte).foldl (fun a b => a * 10 + (b - 48)) 0)

/-- Status-code extraction of dissect_http: atoi of the bytes after the
first space, 0 when there is no space. -/
def extractStatus (data : List Nat) : Nat :=
  match findSpace data with
  | some i => (atoiBytes (data.drop (i + 1))).toNat
  | none => 0

/-- dissect_http (dpi_engine.c lines 119-169). -/
def dissect_http (data : List Nat) : Option HttpData :=
  if data.length < 7 then none
  else if httpMethods.any (fun m => bytesAt m data) then
    some { method := extractMethod data, status_code := 0, is_request := true }
  else if bytesAt (strBytes "HTTP/") data then
    some { method := [], status_code := extractStatus data, is_request := false }
  else none

/-- dpi_dns_data_t (fields written by dissect_dns). -/
structure DnsData where
  transaction_id : Nat
  is_query : Bool
  response_code : Nat
  deriving DecidableEq, Repr

/-- dissect_dns (dpi_engine.c lines 175-193). -/
def dissect_dns (data : List Nat) : Option DnsData :=
  if data.length < 12 then none
  else
    some { transaction_id := (data.getD 0 0) % 256 * 256 + (data.getD 1 0) % 256,
           is_query := (data.getD 2 0) / 128 % 2 == 0,
           response_code := (data.getD 3 0) % 16 }

/-- dpi_tls_data_t (fields written by dissect_tls). -/
structure TlsData where
  version_major : Nat
  version_minor : Nat
  deriving DecidableEq, Repr

/-- dissect_tls (dpi_engine.c lines 199-225): content type must be
0x15/0x16/0x17 and the record version must be 3.1-3.4. -/
def dissect_tls (data : List Nat) : Option TlsData :=
  if data.length < 5 then none
  else
    let content_type := data.getD 0 0
    if content_type ≠ 0x16 && content_type ≠ 0x17 && content_type ≠ 0x15 then none
    else if data.getD 1 0 ≠ 0x03 || (data.getD 2 0 < 0x01 || data.getD 2 0 > 0x04) then none
    else some { version_major := data.getD 1 0, version_minor := data.getD 2 0 }

/-- dissect_smtp (dpi_engine.c lines 231-251): returns only a tag. -/
def dissect_smtp (data : List Nat) : Bool :=
  if data.length < 8 then false
  else if isDigitByte (data.getD 0 0) && isDigitByte (data.getD 1 0) &&
          isDigitByte (data.getD 2 0) && data.getD 3 0 == SP then true
  else
    [strBytes "EHLO ", strBytes "HELO ", strBytes "MAIL ", strBytes "RCPT ",
     strBytes "DATA", strBytes "QUIT"].any (fun m => bytesAt m data)

/-- dissect_smb (dpi_engine.c lines 257-268). -/
def dissect_smb (data : List Nat) : Bool :=
  if data.length < 4 then false
  else (data.getD 0 0 == 0xFF || data.getD 0 0 == 0xFE) &&
       data.getD 1 0 == 83 && data.getD 2 0 == 77 && data.getD 3 0 == 66

/-- classify_by_port (dpi_engine.c lines 273-288). -/
def classify_by_port (src_port dst_port : Nat) : Protocol :=
  if dst_port == 80 || src_port == 80 then .http
  else if dst_port == 443 || src_port == 443 then .https
  else if dst_port == 53 || src_port == 53 then .dns
  else if dst_port == 25 || dst_port == 587 || src_port == 25 then .smtp
  else if dst_port == 465 || src_port == 465 then .smtps
  else if dst_port == 21 || src_port == 21 then .ftp
  else if dst_port == 990 || src_port == 990 then .ftps
  else if dst_port == 445 || src_port == 445 then .smb
  else if dst_port == 22 || src_port == 22 then .ssh
  else if dst_port == 23 || src_port == 23 then .telnet
  else if dst_port == 161 || src_port == 161 then .snmp
  else .unknown

/-! ### DPI engine state (dpi_engine.c internal structures + dpi_engine.h) -/

/-- dpi_flow_tuple_t. -/
structure FlowTuple where
  src_ip : Nat
  dst_ip : Nat
  src_port : Nat
  dst_port : Nat
  protocol : Nat
  deriving DecidableEq, Repr

/-- flow_tuple_equal (dpi_engine.c lines 94-101). -/
def flow_tuple_equal (a b : FlowTuple) : Bool :=
  a.src_ip == b.src_ip && a.dst_ip == b.dst_ip &&
  a.src_port == b.src_port && a.dst_port == b.dst_port &&
  a.protocol == b.protocol

/-- dpi_protocol_result_t (the app_name text field is never written by
the code and is omitted). -/
structure ProtocolResult where
  protocol : Protocol
  confidence : Nat
  detection_tick : Nat
  deriving DecidableEq, Repr

/-- dpi_anomaly_t; the formatted description text carries no further
information beyond the type and is omitted. -/
structure Anomaly where
  anomaly_type : Nat
  severity : Nat
  deriving DecidableEq, Repr

/-- dpi_session_t.  The fwd/rev reassembly buffers are allocated but
never read or written by any code path, so they are omitted. -/
structure Session where
  session_id : Nat
  flow : FlowTuple
  state : SessionState
  protocol : ProtocolResult
  http_data : Option HttpData
  dns_data : Option DnsData
  tls_data : Option TlsData
  anomalies : List Anomaly
  created_ns : Nat
  last_seen_ns : Nat
  packets_seen : Nat
  total_bytes : Nat
  deriving DecidableEq, Repr

/-- dpi_rule_t. -/
structure Rule where
  rule_id : Nat
  type : RuleType
  name : List Nat
  description : List Nat
  severity : Nat
  pattern : Option (List Nat)
  pattern_len : Nat
  protocol : Protocol
  port_range_start : Nat
  port_range_end : Nat
  applies_to_request : Bool
  applies_to_response : Bool
  category : List Nat
  created_at : Nat
  last_modified : Nat
  enabled : Bool
  deriving DecidableEq, Repr

/-- dpi_alert_t. -/
structure Alert where
  alert_id : Nat
  timestamp_ns : Nat
  flow : FlowTuple
  severity : Nat
  protocol : Protocol
  rule_id : Nat
  rule_name : List Nat
  message : List Nat
  payload_sample : List Nat
  offset_in_stream : Nat
  deriving DecidableEq, Repr

/-- The zeroed alert record a calloc'd queue slot holds. -/
def zeroAlert : Alert :=
  { alert_id := 0, timestamp_ns := 0, flow := ⟨0, 0, 0, 0, 0⟩, severity := 0,
    protocol := .unknown, rule_id := 0, rule_name := [], message := [],
    payload_sample := [], offset_in_stream := 0 }

/-- dpi_alert_queue_t: the calloc'd backing array is all-zero, so only
the written cells are kept in the list; reads use getD with zeroAlert. -/
structure AlertQueue where
  queue : List Alert
  head : Nat
  tail : Nat
  capacity : Nat
  deriving DecidableEq, Repr

/-- dpi_config_t (log_dir text and the two log flags kept as data; no
code path reads them). -/
structure Config where
  tls_mode : TlsMode
  enable_anomaly_detection : Bool
  enable_malware_detection : Bool
  reassembly_timeout_sec : Nat
  max_concurrent_sessions : Nat
  memory_limit_mb : Nat
  log_all_alerts : Bool
  log_tls_keys : Bool
  log_dir : List Nat
  redact_pii : Bool
  anonymize_ips : Bool
  deriving DecidableEq, Repr

/-- dpi_stats_t (the three floating-point performance fields are never
assigned by any code path and are omitted). -/
structure Stats where
  packets_processed : Nat
  bytes_processed : Nat
  flows_created : Nat
  flows_terminated : Nat
  active_sessions : Nat
  alerts_generated : Nat
  anomalies_detected : Nat
  http_packets : Nat
  dns_packets : Nat
  tls_packets : Nat
  smtp_packets : Nat
  smb_packets : Nat
  deriving DecidableEq, Repr

def zeroStats : Stats := ⟨0, 0, 0, 0, 0, 0, 0, 0, 0, 0, 0, 0⟩

/-- struct dpi_engine_s.  The rules list is the dense prefix of the
rules array (length = rule_count); the compiled-regex array is kept
abstract, regcomp outcomes enter as explicit arguments. -/
structure Engine where
  config : Config
  sessions : List Session
  session_capacity : Nat
  rules : List Rule
  max_rules : Nat
  alerts : AlertQueue
  stats : Stats
  next_session_id : Nat
  next_alert_id : Nat
  deriving DecidableEq, Repr

/-- dpi_init (dpi_engine.c lines 347-395), allocation succeeding. -/
def dpi_init (config : Config) : Engine :=
  { config := config,
    sessions := [],
    session_capacity := config.max_concurrent_sessions,
    rules := [],
    max_rules := DPI_MAX_RULES,
    alerts := { queue := [], head := 0, tail := 0, capacity := DPI_MAX_ALERTS },
    stats := zeroStats,
    next_session_id := 1,
    next_alert_id := 1 }

/-- detect_anomalies (dpi_engine.c lines 297-341).  The single local
anomaly variable is overwritten by each matching check in source order
and appended once if its type is non-zero.  The is_response argument is
unused by the C code.  strstr is modelled as byte-infix search over the
payload. -/
def detect_anomalies (s : Session) (data : List Nat) (is_response : Bool) : Session :=
  if s.anomalies.length ≥ 10 then s
  else
    let a0 : Anomaly := ⟨0, 0⟩
    let a1 := if s.protocol.protocol = .http ∧ data.length > 8192 then (⟨1, 5⟩ : Anomaly) else a0
    let a2 := if s.protocol.protocol = .http ∧ containsBytes (strBytes "User-Agent: ") data
              then (⟨2, 3⟩ : Anomaly) else a1
    let a3 := if s.protocol.protocol = .http ∧ s.flow.dst_port ≠ 80 ∧ s.flow.dst_port ≠ 8080
              then (⟨3, 4⟩ : Anomaly) else a2
    if a3.anomaly_type ≠ 0 then { s with anomalies := s.anomalies ++ [a3] } else s

/-- The classification cascade of dpi_process_packet (dpi_engine.c lines
447-468): runs only while the session protocol is UNKNOWN, in the order
HTTP, DNS, TLS, SMTP, SMB, then port heuristics; detection_tick is set
to the (already incremented) packets_seen. -/
def classifySession (s : Session) (flow : FlowTuple) (data : List Nat) : Session :=
  if s.protocol.protocol = .unknown ∧ 0 < data.length then
    let s' :=
      match dissect_http data with
      | some h => { s with protocol.protocol := Protocol.http, http_data := some h }
      | none =>
        match dissect_dns data with
        | some d => { s with protocol.protocol := Protocol.dns, dns_data := some d }
        | none =>
          match dissect_tls data with
          | some t => { s with protocol.protocol := Protocol.https, tls_data := some t }
          | none =>
            if dissect_smtp data then { s with protocol.protocol := Protocol.smtp }
            else if dissect_smb data then { s with protocol.protocol := Protocol.smb }
            else { s with protocol.protocol := classify_by_port flow.src_port flow.dst_port }
    { s' with protocol.detection_tick := s'.packets_seen }
  else s

/-- The per-session body of dpi_process_packet (dpi_engine.c lines
441-478): bump counters, classify, advance NEW to ESTABLISHED, run
anomaly detection when enabled. -/
def updateSession (cfg : Config) (s : Session) (flow : FlowTuple) (data : List Nat)
    (ts : Nat) (is_response : Bool) : Session :=
  let s1 := { s with last_seen_ns := ts, packets_seen := s.packets_seen + 1,
                     total_bytes := s.total_bytes + data.length }
  let s2 := classifySession s1 flow data
  let s3 := if s2.state = .snew then { s2 with state := .established } else s2
  if cfg.enable_anomaly_detection then detect_anomalies s3 data is_response else s3

/-- A freshly calloc'd session as dpi_process_packet initialises it
(dpi_engine.c lines 424-439). -/
def newSession (sid : Nat) (flow : FlowTuple) (ts : Nat) : Session :=
  { session_id := sid, flow := flow, state := .snew,
    protocol := { protocol := .unknown, confidence := 0, detection_tick := 0 },
    http_data := none, dns_data := none, tls_data := none, anomalies := [],
    created_ns := ts, last_seen_ns := ts, packets_seen := 0, total_bytes := 0 }

/-- The session-lookup loop of dpi_process_packet (dpi_engine.c lines
417-422): index of the first session with an equal flow tuple. -/
def findFlowIdx (flow : FlowTuple) : List Session → Option Nat
  | [] => none
  | s :: rest =>
      if flow_tuple_equal s.flow flow then some 0
      else (findFlowIdx flow rest).map (· + 1)

/-- dpi_process_packet (dpi_engine.c lines 397-493) on non-null
arguments; a separate checked wrapper models the pointer guards.  The
hash of the flow is computed by the C code but never used for indexing:
session lookup is a linear scan in insertion order.  alerts_generated is
initialised to 0 and never modified; the rule engine is never consulted.
Returns the updated engine and the returned alert count. -/
def dpi_process_packet (e : Engine) (flow : FlowTuple) (data : List Nat)
    (ts : Nat) (is_response : Bool) : Engine × Nat :=
  if data.length = 0 then (e, 0)
  else
    let (e1, sessions') :=
      match findFlowIdx flow e.sessions with
      | some i =>
          let s := e.sessions.getD i (newSession 0 flow ts)
          (e, e.sessions.set i (updateSession e.config s flow data ts is_response))
      | none =>
          if e.sessions.length < e.session_capacity then
            let s := newSession e.next_session_id flow ts
            ({ e with next_session_id := e.next_session_id + 1 },
             e.sessions ++ [updateSession e.config s flow data ts is_response])
          else (e, e.sessions)
    let e2 := { e1 with sessions := sessions' }
    ({ e2 with stats := { e2.stats with
         packets_processed := e2.stats.packets_processed + 1,
         bytes_processed := e2.stats.bytes_processed + data.length,
         active_sessions := sessions'.length } }, 0)

/-- Pointer-guard wrapper of dpi_process_packet (dpi_engine.c lines
406-407): a null engine, flow or data pointer, or packet_len == 0,
returns 0 with no state touched.  The byte list of a non-null data
pointer holds at least packet_len readable bytes. -/
def dpi_process_packet_checked (engine : Option Engine) (flow : Option FlowTuple)
    (packet_data : Option (List Nat)) (packet_len : Nat) (ts : Nat)
    (is_response : Bool) : Option Engine × Nat :=
  match engine, flow, packet_data with
  | some e, some f, some d =>
      if packet_len = 0 then (some e, 0)
      else
        let r := dpi_process_packet e f (d.take packet_len) ts is_response
        (some r.1, r.2)
  | e, _, _ => (e, 0)

/-! ### Rule engine operations (dpi_engine.c lines 495-557) -/

/-- dpi_add_rule (dpi_engine.c lines 495-524) on non-null arguments.
regcomp is an external libc call; its outcome for this pattern enters as
the regcomp_ok argument.  On a full table the call returns 0.  The new
rule is stored at index rule_count with rule_id = rule_count + 1; when a
REGEX pattern fails to compile, rule_count is not incremented, so the
written slot is dead and the engine is observably unchanged. -/
def dpi_add_rule (e : Engine) (rule : Rule) (regcomp_ok : Bool) : Engine × Nat :=
  if e.rules.length ≥ e.max_rules then (e, 0)
  else
    let rule_id := e.rules.length + 1
    let r := { rule with rule_id := rule_id }
    if rule.type = RuleType.regex ∧ rule.pattern.isSome then
      if regcomp_ok then ({ e with rules := e.rules ++ [r] }, rule_id)
      else (e, 0)
    else ({ e with rules := e.rules ++ [r] }, rule_id)

/-- The removal loop of dpi_remove_rule: index of the first rule whose
rule_id matches. -/
def findRuleIdx (rule_id : Nat) : List Rule → Option Nat
  | [] => none
  | r :: rest =>
      if r.rule_id == rule_id then some 0
      else (findRuleIdx rule_id rest).map (· + 1)

/-- dpi_remove_rule (dpi_engine.c lines 526-557) on a non-null engine:
linear search for the first rule with the given id, erase it (memmove of
the tail), -1 when the id is 0 or absent. -/
def dpi_remove_rule (e : Engine) (rule_id : Nat) : Engine × Int :=
  if rule_id = 0 then (e, -1)
  else
    match findRuleIdx rule_id e.rules with
    | some i => ({ e with rules := e.rules.eraseIdx i }, 0)
    | none => (e, -1)

/-! ### Alert queue drain (dpi_engine.c lines 559-583) -/

/-- The while loop of dpi_get_alerts: count bounded by max_alerts (the
fuel), stop when head == tail; head advances only when clear_after_read
is set, otherwise the same head cell is copied again. -/
def drainAlerts (clear : Bool) : Nat → AlertQueue → AlertQueue × List Alert
  | 0, q => (q, [])
  | fuel + 1, q =>
      if q.head ≠ q.tail then
        let a := q.queue.getD q.head zeroAlert
        let q1 := if clear then { q with head := (q.head + 1) % q.capacity } else q
        let (q2, rest) := drainAlerts clear fuel q1
        (q2, a :: rest)
      else (q, [])

/-- dpi_get_alerts (dpi_engine.c lines 559-583) on non-null arguments.
Returns the updated engine and the copied-out alerts; the C return value
is the length of that list. -/
def dpi_get_alerts (e : Engine) (max_alerts : Nat) (clear_after_read : Bool) :
    Engine × List Alert :=
  if max_alerts = 0 then (e, [])
  else
    let (q, out) := drainAlerts clear_after_read max_alerts e.alerts
    ({ e with alerts := q }, out)

/-! ### Remaining DPI API surface used by the claims -/

/-- dpi_get_session (dpi_engine.c lines 599-618): first session whose
flow equals the argument, in insertion order. -/
def dpi_get_session (e : Engine) (flow : FlowTuple) : Option Session :=
  e.sessions.find? (fun s => flow_tuple_equal s.flow flow)

/-- dpi_classify_protocol (dpi_engine.c lines 620-635). -/
def dpi_classify_protocol (e : Engine) (flow : FlowTuple) : ProtocolResult :=
  match dpi_get_session e flow with
  | some s => s.protocol
  | none => { protocol := .unknown, confidence := 0, detection_tick := 0 }

/-- dpi_set_tls_mode (dpi_engine.c lines 637-647) on non-null arguments:
writes the engine-wide config field and returns 0; the flow argument is
only null-checked and otherwise ignored. -/
def dpi_set_tls_mode (e : Engine) (flow : FlowTuple) (mode : TlsMode) : Engine × Int :=
  ({ e with config := { e.config with tls_mode := mode } }, 0)

/-! ### Packet capture: ring buffer (packet_capture.c lines 209-281)

write_pos and read_pos are uint64 absolute positions.  read_pos is
assigned only at allocation (nothing in the code advances it) and
write_pos stays within read_pos + size, far below 2^64, so plain Nat
arithmetic coincides with the machine arithmetic on every reachable
state.
-/

structure RingBuffer where
  size : Nat
  write_pos : Nat
  read_pos : Nat
  buffer : List Nat
  deriving DecidableEq, Repr

/-- ringbuffer_alloc (packet_capture.c lines 209-237) with mmap
succeeding: size_mb * 2^20 bytes (uint32 product), zero-filled. -/
def ringbuffer_alloc (size_mb : Nat) : RingBuffer :=
  let size := size_mb * 1024 * 1024 % 2 ^ 32
  { size := size, write_pos := 0, read_pos := 0, buffer := List.replicate size 0 }

/-- The wrap-around memcpy of ringbuffer_append: byte i of the data goes
to cell (offset + i) mod size. -/
def writeWrapped (buf : List Nat) (offset : Nat) : List Nat → List Nat
  | [] => buf
  | b :: rest => writeWrapped (buf.set (offset % buf.length) b) (offset + 1) rest

/-- ringbuffer_append (packet_capture.c lines 253-281).  Returns the new
state plus either none (UINT32_MAX, packet dropped, buffer untouched) or
some (offset, packet_id) where packet_id is the post-append write_pos. -/
def ringbuffer_append (rb : RingBuffer) (data : List Nat) :
    RingBuffer × Option (Nat × Nat) :=
  let offset := rb.write_pos % rb.size
  let available := rb.size - (rb.write_pos - rb.read_pos)
  if available < data.length then (rb, none)
  else
    let wp := rb.write_pos + data.length
    ({ rb with buffer := writeWrapped rb.buffer offset data, write_pos := wp },
     some (offset, wp))

/-! ### Packet capture: flow table (packet_capture.c lines 290-410)

flow_tuple_hash is FNV-1a over the in-memory bytes of the FlowTuple
struct, including padding, so its value depends on the ABI layout; the
model takes the hash as an explicit function argument and every theorem
holds for all of them.
-/

/-- FlowTuple of packet_capture.h (5-tuple + VLAN). -/
structure CFlowTuple where
  src_ip : Nat
  dst_ip : Nat
  src_port : Nat
  dst_port : Nat
  protocol : Nat
  vlan_id : Nat
  deriving DecidableEq, Repr

/-- FlowRecord of packet_capture.h. -/
structure FlowRecord where
  tuple : CFlowTuple
  flow_id : Nat
  first_packet_id : Nat
  last_packet_id : Nat
  first_seen_ns : Nat
  last_seen_ns : Nat
  packets : Nat
  bytes : Nat
  bytes_fwd : Nat
  bytes_rev : Nat
  flags : Nat
  interface_id : Nat
  state : Nat
  deriving DecidableEq, Repr

/-- FlowEntry (packet_capture.c lines 42-47). -/
structure FlowEntry where
  flow : FlowRecord
  last_activity_ns : Nat
  packet_count : Nat
  state : Nat
  deriving DecidableEq, Repr

/-- The zeroed entry a calloc'd flow-table slot holds. -/
def zeroFlowEntry : FlowEntry :=
  { flow := { tuple := ⟨0, 0, 0, 0, 0, 0⟩, flow_id := 0, first_packet_id := 0,
              last_packet_id := 0, first_seen_ns := 0, last_seen_ns := 0,
              packets := 0, bytes := 0, bytes_fwd := 0, bytes_rev := 0,
              flags := 0, interface_id := 0, state := 0 },
    last_activity_ns := 0, packet_count := 0, state := 0 }

/-- FlowTable (packet_capture.c lines 64-69); entries has length size. -/
structure FlowTable where
  entries : List FlowEntry
  size : Nat
  count : Nat
  deriving DecidableEq, Repr

/-- flow_table_init (packet_capture.c lines 290-305), calloc succeeding. -/
def flow_table_init (size : Nat) : FlowTable :=
  { entries := List.replicate size zeroFlowEntry, size := size, count := 0 }

/-- The per-slot effect of flow_table_update (packet_capture.c lines
330-351).  A slot counts as empty exactly when its stored src_ip is 0; a
new occupant only assigns the listed fields, everything else keeps the
slot's previous bytes. -/
def updatedEntry (hash : CFlowTuple → Nat) (entry : FlowEntry) (tuple : CFlowTuple)
    (payload_len packet_id timestamp_ns : Nat) : FlowEntry :=
  let entry1 :=
    if entry.flow.tuple.src_ip = 0 then
      { entry with flow := { entry.flow with
          tuple := tuple, flow_id := hash tuple, first_packet_id := packet_id,
          first_seen_ns := timestamp_ns, packets := 1, bytes := payload_len,
          state := 0 } }
    else
      { entry with flow := { entry.flow with
          last_packet_id := packet_id, packets := entry.flow.packets + 1,
          bytes := entry.flow.bytes + payload_len } }
  { entry1 with
    flow := { entry1.flow with last_seen_ns := timestamp_ns },
    last_activity_ns := timestamp_ns }

/-- flow_table_update (packet_capture.c lines 320-354) on non-null
arguments.  hash is the (layout-dependent) flow_tuple_hash. -/
def flow_table_update (hash : CFlowTuple → Nat) (ft : FlowTable) (tuple : CFlowTuple)
    (payload_len packet_id timestamp_ns : Nat) : FlowTable × Int :=
  let idx := hash tuple % ft.size
  let entry := ft.entries.getD idx zeroFlowEntry
  ({ ft with
      entries := ft.entries.set idx
        (updatedEntry hash entry tuple payload_len packet_id timestamp_ns),
      count := if entry.flow.tuple.src_ip = 0 then ft.count + 1 else ft.count }, 0)

/-- flow_table_lookup (packet_capture.c lines 359-382) on non-null
arguments: compares the five non-VLAN tuple fields of the hashed slot;
some record on hit (C return 0), none when they differ (C return 1). -/
def flow_table_lookup (hash : CFlowTuple → Nat) (ft : FlowTable)
    (tuple : CFlowTuple) : Option FlowRecord :=
  let idx := hash tuple % ft.size
  let entry := ft.entries.getD idx zeroFlowEntry
  if entry.flow.tuple.src_ip = tuple.src_ip ∧
     entry.flow.tuple.dst_ip = tuple.dst_ip ∧
     entry.flow.tuple.src_port = tuple.src_port ∧
     entry.flow.tuple.dst_port = tuple.dst_port ∧
     entry.flow.tuple.protocol = tuple.protocol
  then some entry.flow else none

/-! ### Derived notions used by the statements -/

/-- A whole sequence of ringbuffer_append calls (return values dropped). -/
def appendAll (rb : RingBuffer) : List (List Nat) → RingBuffer
  | [] => rb
  | d :: ds => appendAll (ringbuffer_append rb d).1 ds

/-- One flow_table_update call record. -/
structure FlowUpdate where
  tuple : CFlowTuple
  payload_len : Nat
  packet_id : Nat
  timestamp_ns : Nat
  deriving DecidableEq, Repr

/-- A whole sequence of flow_table_update calls (return values dropped). -/
def applyUpdates (hash : CFlowTuple → Nat) (ft : FlowTable) : List FlowUpdate → FlowTable
  | [] => ft
  | u :: us =>
      applyUpdates hash
        (flow_table_update hash ft u.tuple u.payload_len u.packet_id u.timestamp_ns).1 us

/-- The slot a tuple hashes to. -/
def slotAt (hash : CFlowTuple → Nat) (ft : FlowTable) (t : CFlowTuple) : FlowEntry :=
  ft.entries.getD (hash t % ft.size) zeroFlowEntry

/-- Occupied slots carry sane aggregates and timestamps below the bound:
the induction invariant for monotone-timestamp update sequences. -/
def EntriesOk (ft : FlowTable) (bound : Nat) : Prop :=
  ∀ en ∈ ft.entries, en.flow.tuple.src_ip ≠ 0 →
    1 ≤ en.flow.packets ∧ en.flow.first_seen_ns ≤ en.flow.last_seen_ns ∧
    en.flow.last_seen_ns ≤ bound

/-! ### Concrete instances used by counterexamples and witnesses -/

/-- A small but fully populated configuration. -/
def cfgW : Config :=
  { tls_mode := .disabled, enable_anomaly_detection := false,
    enable_malware_detection := false, reassembly_timeout_sec := 300,
    max_concurrent_sessions := 4, memory_limit_mb := 64,
    log_all_alerts := false, log_tls_keys := false, log_dir := [],
    redact_pii := false, anonymize_ips := false }

/-- A concrete flow (TCP 1.2.3.4-style values, ports 1234 -> 5678). -/
def flowW : FlowTuple := ⟨1, 2, 1234, 5678, 6⟩

/-- An enabled REGEX rule with pattern "evil" scoped to every protocol
and port (the rule of spec scenario 6). -/
def regexRuleW : Rule :=
  { rule_id := 0, type := .regex, name := [], description := [], severity := 2,
    pattern := some (strBytes "evil"), pattern_len := 4, protocol := .unknown,
    port_range_start := 0, port_range_end := 0, applies_to_request := true,
    applies_to_response := true, category := [], created_at := 0,
    last_modified := 0, enabled := true }

/-- The same rule as a CONTENT rule (no regex compilation involved). -/
def contentRuleW : Rule := { regexRuleW with type := .content }

def alertOne : Alert := { zeroAlert with alert_id := 1 }

def alertTwo : Alert := { zeroAlert with alert_id := 2 }

/-- A queue state holding the two alerts in FIFO positions 0 and 1. -/
def queueTwo : AlertQueue := { queue := [alertOne, alertTwo], head := 0, tail := 2, capacity := 4 }

/-- The constant hash: a legitimate instantiation of the layout-dependent
flow_tuple_hash parameter (the flow-table counterexamples involve a
single tuple each, so they hold for every hash function; this one also
makes them kernel-evaluable). -/
def hashZero : CFlowTuple → Nat := fun _ => 0

/-- A concrete non-zero-source capture-side tuple. -/
def ctupleW : CFlowTuple := ⟨1, 2, 3, 4, 6, 0⟩

/-- A capture-side tuple whose src_ip is 0 (a legal 0.0.0.0 source). -/
def ctupleZ : CFlowTuple := ⟨0, 9, 9, 9, 6, 0⟩

/-- flowW redirected at destination port 80 (port-based HTTP fallback). -/
def flowW80 : FlowTuple := ⟨1, 2, 1234, 80, 6⟩

/-- The engine after one HTTP request packet on flowW (payload-based
classification path). -/
def engineHttpPayload : Engine :=
  (dpi_process_packet (dpi_init cfgW) flowW (strBytes "GET / HT") 100 false).1

/-- The engine after one undissectable packet on a port-80 flow
(port-based classification path). -/
def enginePortFallback : Engine :=
  (dpi_process_packet (dpi_init cfgW) flowW80 [0, 0, 0, 0] 100 false).1

/-- The engine holding one enabled CONTENT rule matching "evil". -/
def engineOneRule : Engine := (dpi_add_rule (dpi_init cfgW) contentRuleW true).1

/-! ## Theorems -/

/-- Claim C10 (confirmed): dpi_set_tls_mode sets the engine-wide
config.tls_mode, returns 0, leaves sessions, rules, alerts, stats, the
counters and every other config field unchanged, and its result does not
depend on the flow argument. -/
theorem dpi_set_tls_mode_engine_wide (e : Engine) (m : TlsMode) (f1 f2 : FlowTuple) :
    dpi_set_tls_mode e f1 m = dpi_set_tls_mode e f2 m ∧
    (dpi_set_tls_mode e f1 m).2 = 0 ∧
    (dpi_set_tls_mode e f1 m).1.config.tls_mode = m ∧
    (dpi_set_tls_mode e f1 m).1.config = { e.config with tls_mode := m } ∧
    (dpi_set_tls_mode e f1 m).1.sessions = e.sessions ∧
    (dpi_set_tls_mode e f1 m).1.session_capacity = e.session_capacity ∧
    (dpi_set_tls_mode e f1 m).1.rules = e.rules ∧
    (dpi_set_tls_mode e f1 m).1.max_rules = e.max_rules ∧
    (dpi_set_tls_mode e f1 m).1.alerts = e.alerts ∧
    (dpi_set_tls_mode e f1 m).1.stats = e.stats ∧
    (dpi_set_tls_mode e f1 m).1.next_session_id = e.next_session_id ∧
    (dpi_set_tls_mode e f1 m).1.next_alert_id = e.next_alert_id :=
  ⟨rfl, rfl, rfl, rfl, rfl, rfl, rfl, rfl, rfl, rfl, rfl, rfl⟩

/-- Claim C9 (confirmed): dpi_process_packet with a null engine, flow or
data pointer, or packet_len = 0, returns 0 and leaves the engine exactly
as it was: no session is created, no classification advances, no alert
is generated, no statistic moves. -/
theorem dpi_process_packet_guard_no_effect (e : Engine) (f : FlowTuple)
    (d : List Nat) (len ts : Nat) (r : Bool) :
    dpi_process_packet_checked none (some f) (some d) len ts r = (none, 0) ∧
    dpi_process_packet_checked (some e) none (some d) len ts r = (some e, 0) ∧
    dpi_process_packet_checked (some e) (some f) none len ts r = (some e, 0) ∧
    dpi_process_packet_checked (some e) (some f) (some d) 0 ts r = (some e, 0) :=
  ⟨rfl, rfl, rfl, rfl⟩

/-- Claim C1 (code_bug): the DPI hot path never consults the rule
engine.  With a non-empty rule set holding an enabled CONTENT rule whose
pattern "evil" occurs in the payload and whose scope (protocol UNKNOWN,
port range 0..0) admits the session, dpi_process_packet still returns 0
alerts and leaves the alert queue untouched: alerts_generated is
initialised to 0 and returned unchanged in the source. -/
theorem dpi_process_packet_ignores_rules :
    engineOneRule.rules.length = 1 ∧
    (engineOneRule.rules.map Rule.enabled) = [true] ∧
    containsBytes (strBytes "evil") (strBytes "evil payload") = true ∧
    (dpi_process_packet engineOneRule flowW (strBytes "evil payload") 100 false).2 = 0 ∧
    (dpi_process_packet engineOneRule flowW (strBytes "evil payload") 100 false).1.alerts
      = engineOneRule.alerts := by decide

/-- Claim C2 (code_bug): rule ids are computed as rule_count + 1, so an
id freed by dpi_remove_rule is assigned again.  After add, add, remove
id 1, the next add returns id 2 even though id 2 was assigned earlier
and its owner is still present: the rule list then holds [2, 2]. -/
theorem dpi_rule_id_reused_after_removal :
    (dpi_add_rule (dpi_init cfgW) contentRuleW true).2 = 1 ∧
    (dpi_add_rule (dpi_add_rule (dpi_init cfgW) contentRuleW true).1 contentRuleW true).2
      = 2 ∧
    (dpi_remove_rule
      (dpi_add_rule (dpi_add_rule (dpi_init cfgW) contentRuleW true).1 contentRuleW true).1
      1).2 = 0 ∧
    (dpi_add_rule (dpi_remove_rule
      (dpi_add_rule (dpi_add_rule (dpi_init cfgW) contentRuleW true).1 contentRuleW true).1
      1).1 contentRuleW true).2 = 2 ∧
    ((dpi_add_rule (dpi_remove_rule
      (dpi_add_rule (dpi_add_rule (dpi_init cfgW) contentRuleW true).1 contentRuleW true).1
      1).1 contentRuleW true).1.rules.map Rule.rule_id) = [2, 2] := by decide

/-- Claim C3 (code_bug): dpi_get_alerts only advances head when
clear_after_read is set, but the copy loop counts up to max_alerts
regardless, so a non-clearing call on a queue holding alerts 1 and 2
returns two copies of the head entry instead of the two distinct FIFO
entries; the queue itself is left unchanged, and a clearing drain does
return the distinct entries in FIFO order. -/
theorem dpi_get_alerts_duplicates_head_when_not_clearing :
    (dpi_get_alerts { dpi_init cfgW with alerts := queueTwo } 2 false).2
      = [alertOne, alertOne] ∧
    (dpi_get_alerts { dpi_init cfgW with alerts := queueTwo } 2 false).1.alerts
      = queueTwo ∧
    (dpi_get_alerts { dpi_init cfgW with alerts := queueTwo } 5 false).2
      = [alertOne, alertOne, alertOne, alertOne, alertOne] ∧
    (dpi_get_alerts { dpi_init cfgW with alerts := queueTwo } 2 true).2
      = [alertOne, alertTwo] ∧
    (dpi_get_alerts { dpi_init cfgW with alerts := queueTwo } 2 true).1.alerts.head
      = 2 := by decide

/-- Claim C7 (code_bug): the classification code assigns
session.protocol.protocol and detection_tick but never writes
confidence, so after both a payload-based HTTP classification and a
port-based HTTP classification the stored confidence is the calloc zero,
not 100 or 50. -/
theorem dpi_confidence_never_written :
    ((dpi_get_session engineHttpPayload flowW).map
        (fun s => (s.protocol.protocol, s.protocol.confidence, s.protocol.detection_tick)))
      = some (Protocol.http, 0, 1) ∧
    ((dpi_get_session enginePortFallback flowW80).map
        (fun s => (s.protocol.protocol, s.protocol.confidence)))
      = some (Protocol.http, 0) := by decide

/-- Claim C8 (confirmed): on a fresh engine, adding a REGEX rule whose
pattern compiles (regcomp outcome true, as for "evil") returns rule_id
1; removing id 1 succeeds and returns the rule count to 0; removing id 1
again returns -1 and leaves the engine unchanged. -/
theorem dpi_rule_add_remove_roundtrip (cfg : Config) (r : Rule) :
    let rr := { r with type := RuleType.regex }
    let e1 := (dpi_add_rule (dpi_init cfg) rr true).1
    (dpi_add_rule (dpi_init cfg) rr true).2 = 1 ∧
    (dpi_remove_rule e1 1).2 = 0 ∧
    (dpi_remove_rule e1 1).1.rules = [] ∧
    (dpi_remove_rule (dpi_remove_rule e1 1).1 1).2 = -1 ∧
    (dpi_remove_rule (dpi_remove_rule e1 1).1 1).1 = (dpi_remove_rule e1 1).1 := by
  intro rr e1
  have hadd : dpi_add_rule (dpi_init cfg) rr true = ({ dpi_init cfg with rules := [{ rr with rule_id := 1 }] }, 1) := by
    cases hp : r.pattern <;>
      simp [dpi_add_rule, dpi_init, DPI_MAX_RULES, rr, hp]
  have he1 : e1 = { dpi_init cfg with rules := [{ rr with rule_id := 1 }] } := by
    simp [e1, hadd]
  have hrem : dpi_remove_rule e1 1 = ({ e1 with rules := [] }, 0) := by
    simp [dpi_remove_rule, findRuleIdx, he1, List.eraseIdx]
  have hrules : (dpi_remove_rule e1 1).1.rules = [] := by simp [hrem]
  have hrem2 : dpi_remove_rule (dpi_remove_rule e1 1).1 1 = ((dpi_remove_rule e1 1).1, -1) := by
    set e2 := (dpi_remove_rule e1 1).1 with he2
    simp [dpi_remove_rule, findRuleIdx, hrules]
  exact ⟨by simp [hadd], by simp [hrem], hrules, by simp [hrem2], by simp [hrem2]⟩

/-- One ringbuffer_append preserves the two position invariants. -/
lemma ringbuffer_append_inv (rb : RingBuffer) (d : List Nat)
    (h1 : rb.read_pos ≤ rb.write_pos) (h2 : rb.write_pos - rb.read_pos ≤ rb.size) :
    (ringbuffer_append rb d).1.read_pos ≤ (ringbuffer_append rb d).1.write_pos ∧
    (ringbuffer_append rb d).1.write_pos - (ringbuffer_append rb d).1.read_pos
      ≤ (ringbuffer_append rb d).1.size := by
  by_cases h : rb.size - (rb.write_pos - rb.read_pos) < d.length
  · have h3 : (ringbuffer_append rb d).1 = rb := by simp [ringbuffer_append, h]
    rw [h3]
    exact ⟨h1, h2⟩
  · have h3 : (ringbuffer_append rb d).1.write_pos = rb.write_pos + d.length ∧
        (ringbuffer_append rb d).1.read_pos = rb.read_pos ∧
        (ringbuffer_append rb d).1.size = rb.size := by
      refine ⟨?_, ?_, ?_⟩ <;> simp [ringbuffer_append, h]
    constructor
    · rw [h3.2.1, h3.1]
      omega
    · rw [h3.1, h3.2.1, h3.2.2]
      omega

/-- Any sequence of appends preserves the two position invariants. -/
lemma appendAll_inv (ds : List (List Nat)) (rb : RingBuffer)
    (h1 : rb.read_pos ≤ rb.write_pos) (h2 : rb.write_pos - rb.read_pos ≤ rb.size) :
    (appendAll rb ds).read_pos ≤ (appendAll rb ds).write_pos ∧
    (appendAll rb ds).write_pos - (appendAll rb ds).read_pos ≤ (appendAll rb ds).size := by
  induction ds generalizing rb with
  | nil => exact ⟨h1, h2⟩
  | cons d ds ih =>
      have h := ringbuffer_append_inv rb d h1 h2
      exact ih _ h.1 h.2

/-- Claim C4 (confirmed): an append fails as a drop, leaving the buffer
untouched, exactly when size - (write_pos - read_pos) < len; otherwise
write_pos grows by len and the returned packet_id is the post-append
write_pos; and from a fresh buffer, any sequence of appends keeps
write_pos ≥ read_pos and write_pos - read_pos ≤ size. -/
theorem ringbuffer_append_spec (rb : RingBuffer) (data : List Nat)
    (size_mb : Nat) (ds : List (List Nat)) :
    (rb.size - (rb.write_pos - rb.read_pos) < data.length →
      ringbuffer_append rb data = (rb, none)) ∧
    (¬ rb.size - (rb.write_pos - rb.read_pos) < data.length →
      (ringbuffer_append rb data).1.write_pos = rb.write_pos + data.length ∧
      (ringbuffer_append rb data).1.read_pos = rb.read_pos ∧
      (ringbuffer_append rb data).1.size = rb.size ∧
      (ringbuffer_append rb data).2
        = some (rb.write_pos % rb.size, rb.write_pos + data.length)) ∧
    ((appendAll (ringbuffer_alloc size_mb) ds).read_pos
        ≤ (appendAll (ringbuffer_alloc size_mb) ds).write_pos ∧
      (appendAll (ringbuffer_alloc size_mb) ds).write_pos
          - (appendAll (ringbuffer_alloc size_mb) ds).read_pos
        ≤ (appendAll (ringbuffer_alloc size_mb) ds).size) := by
  refine ⟨fun h => ?_, fun h => ?_, ?_⟩
  · simp [ringbuffer_append, h]
  · simp [ringbuffer_append, h]
  · exact appendAll_inv ds _ (Nat.le_refl 0) (Nat.zero_le _)

/-- Witness for C4 at a 4-byte buffer with 2 bytes used: a 3-byte append
drops, a 2-byte append advances write_pos to 4 with packet_id 4. -/
theorem ringbuffer_append_spec_witness :
    ((4 : Nat) - (2 - 0) < 3 ∧
      ringbuffer_append ⟨4, 2, 0, [9, 9, 9, 9]⟩ [7, 7, 7] = (⟨4, 2, 0, [9, 9, 9, 9]⟩, none)) ∧
    (¬ (4 : Nat) - (2 - 0) < 2 ∧
      (ringbuffer_append ⟨4, 2, 0, [9, 9, 9, 9]⟩ [7, 7]).1.write_pos = 4 ∧
      (ringbuffer_append ⟨4, 2, 0, [9, 9, 9, 9]⟩ [7, 7]).1.read_pos = 0 ∧
      (ringbuffer_append ⟨4, 2, 0, [9, 9, 9, 9]⟩ [7, 7]).1.size = 4 ∧
      (ringbuffer_append ⟨4, 2, 0, [9, 9, 9, 9]⟩ [7, 7]).2 = some (2, 4)) ∧
    ((appendAll (ringbuffer_alloc 0) [[3], [4, 5]]).read_pos
        ≤ (appendAll (ringbuffer_alloc 0) [[3], [4, 5]]).write_pos ∧
      (appendAll (ringbuffer_alloc 0) [[3], [4, 5]]).write_pos
          - (appendAll (ringbuffer_alloc 0) [[3], [4, 5]]).read_pos
        ≤ (appendAll (ringbuffer_alloc 0) [[3], [4, 5]]).size) :=
  ⟨⟨by decide, (ringbuffer_append_spec ⟨4, 2, 0, [9, 9, 9, 9]⟩ [7, 7, 7] 0 []).1 (by decide)⟩,
   ⟨by decide, (ringbuffer_append_spec ⟨4, 2, 0, [9, 9, 9, 9]⟩ [7, 7] 0 []).2.1 (by decide)⟩,
   (ringbuffer_append_spec ⟨4, 2, 0, [9, 9, 9, 9]⟩ [7, 7] 0 [[3], [4, 5]]).2.2⟩

/-! ### List helpers for the flow-table proofs -/

lemma getD_set_self {α : Type _} (l : List α) (i : Nat) (a d : α) (h : i < l.length) :
    (l.set i a).getD i d = a := by
  rw [List.getD_eq_getElem _ _ (by simpa using h)]
  simp

lemma getD_replicate {α : Type _} (n i : Nat) (x d : α) (h : i < n) :
    (List.replicate n x).getD i d = x := by
  rw [List.getD_eq_getElem _ d (by simpa using h)]
  simp

lemma getD_mem {α : Type _} (l : List α) (i : Nat) (d : α) (h : i < l.length) :
    l.getD i d ∈ l := by
  rw [List.getD_eq_getElem l d h]
  exact List.getElem_mem h

/-! ### Flow-table lemmas -/

/-- One update leaves size and slot-count alone and rewrites exactly the
slot its tuple hashes to. -/
lemma flow_table_update_slot (hash : CFlowTuple → Nat) (ft : FlowTable) (t : CFlowTuple)
    (len pid ts : Nat) (hlen : ft.entries.length = ft.size) (hsz : 0 < ft.size) :
    (flow_table_update hash ft t len pid ts).1.size = ft.size ∧
    (flow_table_update hash ft t len pid ts).1.entries.length = ft.size ∧
    slotAt hash (flow_table_update hash ft t len pid ts).1 t
      = updatedEntry hash (slotAt hash ft t) t len pid ts := by
  have hidx : hash t % ft.size < ft.entries.length := by
    rw [hlen]
    exact Nat.mod_lt _ hsz
  refine ⟨rfl, by simp [flow_table_update, hlen], ?_⟩
  simp only [slotAt, flow_table_update]
  exact getD_set_self _ _ _ _ hidx

/-- Three same-tuple updates from a fresh table, looked up afterwards:
the fully determined record. -/
lemma flow_table_triple_same_tuple (hash : CFlowTuple → Nat) (size : Nat) (t : CFlowTuple)
    (l1 p1 n1 l2 p2 n2 l3 p3 n3 : Nat) (hsz : 0 < size) (hsrc : t.src_ip ≠ 0) :
    flow_table_lookup hash
      (applyUpdates hash (flow_table_init size)
        [⟨t, l1, p1, n1⟩, ⟨t, l2, p2, n2⟩, ⟨t, l3, p3, n3⟩]) t
      = some { tuple := t, flow_id := hash t, first_packet_id := p1,
               last_packet_id := p3, first_seen_ns := n1, last_seen_ns := n3,
               packets := 3, bytes := l1 + l2 + l3, bytes_fwd := 0, bytes_rev := 0,
               flags := 0, interface_id := 0, state := 0 } := by
  have hlen0 : (flow_table_init size).entries.length = (flow_table_init size).size := by
    simp [flow_table_init]
  have hsz0 : 0 < (flow_table_init size).size := by simpa [flow_table_init] using hsz
  have hslot0 : slotAt hash (flow_table_init size) t = zeroFlowEntry := by
    simp only [slotAt, flow_table_init]
    exact getD_replicate _ _ _ _ (Nat.mod_lt _ hsz)
  obtain ⟨hs1, hl1, hslot1⟩ :=
    flow_table_update_slot hash (flow_table_init size) t l1 p1 n1 hlen0 hsz0
  set ft1 := (flow_table_update hash (flow_table_init size) t l1 p1 n1).1 with hft1
  obtain ⟨hs2, hl2, hslot2⟩ :=
    flow_table_update_slot hash ft1 t l2 p2 n2 (by rw [hl1, hs1]) (by rw [hs1]; exact hsz0)
  set ft2 := (flow_table_update hash ft1 t l2 p2 n2).1 with hft2
  obtain ⟨hs3, hl3, hslot3⟩ :=
    flow_table_update_slot hash ft2 t l3 p3 n3 (by rw [hl2, hs2, hs1]) (by rw [hs2, hs1]; exact hsz0)
  set ft3 := (flow_table_update hash ft2 t l3 p3 n3).1 with hft3
  have hfinal : slotAt hash ft3 t =
      updatedEntry hash (updatedEntry hash (updatedEntry hash zeroFlowEntry t l1 p1 n1)
        t l2 p2 n2) t l3 p3 n3 := by
    rw [hslot3, hslot2, hslot1, hslot0]
  have happ : applyUpdates hash (flow_table_init size)
      [⟨t, l1, p1, n1⟩, ⟨t, l2, p2, n2⟩, ⟨t, l3, p3, n3⟩] = ft3 := rfl
  rw [happ]
  have hval : slotAt hash ft3 t =
      { flow := { tuple := t, flow_id := hash t, first_packet_id := p1,
                  last_packet_id := p3, first_seen_ns := n1, last_seen_ns := n3,
                  packets := 3, bytes := l1 + l2 + l3, bytes_fwd := 0, bytes_rev := 0,
                  flags := 0, interface_id := 0, state := 0 },
        last_activity_ns := n3, packet_count := 0, state := 0 } := by
    rw [hfinal]
    simp [updatedEntry, zeroFlowEntry, hsrc]
  simp only [flow_table_lookup]
  rw [show ft3.entries.getD (hash t % ft3.size) zeroFlowEntry = slotAt hash ft3 t from rfl,
    hval]
  simp

/-- A fresh table satisfies the occupied-slot invariant for any bound. -/
lemma entriesOk_init (size b : Nat) : EntriesOk (flow_table_init size) b := by
  intro en hen hsrc
  exact absurd (by rw [List.eq_of_mem_replicate hen]; rfl : en.flow.tuple.src_ip = 0) hsrc

/-- The whole record updatedEntry builds on an empty slot. -/
lemma updatedEntry_new (hash : CFlowTuple → Nat) (entry : FlowEntry) (t : CFlowTuple)
    (len pid ts : Nat) (h : entry.flow.tuple.src_ip = 0) :
    updatedEntry hash entry t len pid ts =
      { flow := { tuple := t, flow_id := hash t, first_packet_id := pid,
                  last_packet_id := entry.flow.last_packet_id,
                  first_seen_ns := ts, last_seen_ns := ts,
                  packets := 1, bytes := len,
                  bytes_fwd := entry.flow.bytes_fwd, bytes_rev := entry.flow.bytes_rev,
                  flags := entry.flow.flags, interface_id := entry.flow.interface_id,
                  state := 0 },
        last_activity_ns := ts, packet_count := entry.packet_count,
        state := entry.state } := by
  simp only [updatedEntry]
  rw [if_pos h]

/-- The whole record updatedEntry builds on an occupied slot. -/
lemma updatedEntry_old (hash : CFlowTuple → Nat) (entry : FlowEntry) (t : CFlowTuple)
    (len pid ts : Nat) (h : ¬ entry.flow.tuple.src_ip = 0) :
    updatedEntry hash entry t len pid ts =
      { flow := { tuple := entry.flow.tuple, flow_id := entry.flow.flow_id,
                  first_packet_id := entry.flow.first_packet_id,
                  last_packet_id := pid,
                  first_seen_ns := entry.flow.first_seen_ns, last_seen_ns := ts,
                  packets := entry.flow.packets + 1, bytes := entry.flow.bytes + len,
                  bytes_fwd := entry.flow.bytes_fwd, bytes_rev := entry.flow.bytes_rev,
                  flags := entry.flow.flags, interface_id := entry.flow.interface_id,
                  state := entry.flow.state },
        last_activity_ns := ts, packet_count := entry.packet_count,
        state := entry.state } := by
  simp only [updatedEntry]
  rw [if_neg h]

/-- One update with a timestamp at or above the bound keeps the
occupied-slot invariant, with the timestamp as the new bound. -/
lemma entriesOk_update (hash : CFlowTuple → Nat) (ft : FlowTable) (t : CFlowTuple)
    (len pid ts b : Nat) (hok : EntriesOk ft b) (hb : b ≤ ts) :
    EntriesOk (flow_table_update hash ft t len pid ts).1 ts := by
  intro en hen hsrc
  rcases List.mem_or_eq_of_mem_set hen with hmem | hEq
  · rcases hok en hmem hsrc with ⟨hp, hfl, hlb⟩
    exact ⟨hp, hfl, hlb.trans hb⟩
  · subst hEq
    by_cases hnew : (ft.entries.getD (hash t % ft.size) zeroFlowEntry).flow.tuple.src_ip = 0
    · rw [updatedEntry_new hash _ t len pid ts hnew]
      exact ⟨Nat.le_refl 1, Nat.le_refl ts, Nat.le_refl ts⟩
    · have hmem : ft.entries.getD (hash t % ft.size) zeroFlowEntry ∈ ft.entries := by
        by_cases hlt : hash t % ft.size < ft.entries.length
        · exact getD_mem _ _ _ hlt
        · exact absurd (by rw [List.getD_eq_default _ _ (Nat.le_of_not_lt hlt)]; rfl :
            (ft.entries.getD (hash t % ft.size) zeroFlowEntry).flow.tuple.src_ip = 0) hnew
      rcases hok _ hmem hnew with ⟨hp, hfl, hlb⟩
      rw [updatedEntry_old hash _ t len pid ts hnew]
      exact ⟨Nat.le_succ_of_le hp, hfl.trans (hlb.trans hb), Nat.le_refl ts⟩

/-- Any update sequence with non-decreasing timestamps keeps the
occupied-slot invariant for some bound. -/
lemma applyUpdates_entriesOk (hash : CFlowTuple → Nat) (us : List FlowUpdate)
    (ft : FlowTable) (b : Nat) (hok : EntriesOk ft b)
    (hmono : List.Pairwise (· ≤ ·) (us.map FlowUpdate.timestamp_ns))
    (hb : ∀ u ∈ us, b ≤ u.timestamp_ns) :
    ∃ b2, EntriesOk (applyUpdates hash ft us) b2 := by
  induction us generalizing ft b with
  | nil => exact ⟨b, hok⟩
  | cons u us ih =>
      rw [List.map_cons, List.pairwise_cons] at hmono
      exact ih _ u.timestamp_ns
        (entriesOk_update hash ft u.tuple u.payload_len u.packet_id u.timestamp_ns b hok
          (hb u (by simp)))
        hmono.2
        (fun v hv => hmono.1 v.timestamp_ns (List.mem_map_of_mem _ hv))

/-- A successful lookup of a tuple with non-zero src_ip on a table
satisfying the invariant yields a sane record. -/
lemma entriesOk_lookup (hash : CFlowTuple → Nat) (ft : FlowTable) (b : Nat)
    (t : CFlowTuple) (rec : FlowRecord) (hok : EntriesOk ft b) (hsrc : t.src_ip ≠ 0)
    (hlk : flow_table_lookup hash ft t = some rec) :
    1 ≤ rec.packets ∧ rec.first_seen_ns ≤ rec.last_seen_ns := by
  simp only [flow_table_lookup] at hlk
  split_ifs at hlk with hc
  · obtain rfl := Option.some.inj hlk
    have hne : (ft.entries.getD (hash t % ft.size) zeroFlowEntry).flow.tuple.src_ip ≠ 0 := by
      rw [hc.1]
      exact hsrc
    have hmem : ft.entries.getD (hash t % ft.size) zeroFlowEntry ∈ ft.entries := by
      by_cases hlt : hash t % ft.size < ft.entries.length
      · exact getD_mem _ _ _ hlt
      · exact absurd (by rw [List.getD_eq_default _ _ (Nat.le_of_not_lt hlt)]; rfl :
          (ft.entries.getD (hash t % ft.size) zeroFlowEntry).flow.tuple.src_ip = 0) hne
    rcases hok _ hmem hne with ⟨hp, hfl, _⟩
    exact ⟨hp, hfl⟩

/-- Claim C5 (corrected; amended statement).  For a non-empty flow table
and a tuple whose src_ip is non-zero, three successive updates on that
tuple with payload sizes 100, 200, 50 and strictly increasing packet ids
and timestamps yield a record with packets = 3, bytes = 350 and
first_packet_id < last_packet_id; and every flow record reachable by
lookup of a tuple with non-zero src_ip, after any update sequence with
non-decreasing timestamps from an empty table, satisfies packets ≥ 1 and
first_seen_ns ≤ last_seen_ns.  (The unamended claim fails because the
code uses src_ip == 0 as its empty-slot sentinel and trusts the caller's
clock: see the counterexample.) -/
theorem flow_table_scenario_and_invariant (hash : CFlowTuple → Nat) (size : Nat)
    (t : CFlowTuple) (pa pb pc na nb nc : Nat)
    (hsz : 0 < size) (hsrc : t.src_ip ≠ 0)
    (hp1 : pa < pb) (hp2 : pb < pc) (hn1 : na < nb) (hn2 : nb < nc) :
    (∃ rec, flow_table_lookup hash (applyUpdates hash (flow_table_init size)
          [⟨t, 100, pa, na⟩, ⟨t, 200, pb, nb⟩, ⟨t, 50, pc, nc⟩]) t = some rec ∧
        rec.packets = 3 ∧ rec.bytes = 350 ∧
        rec.first_packet_id = pa ∧ rec.last_packet_id = pc ∧
        rec.first_packet_id < rec.last_packet_id) ∧
    (∀ us u rec, List.Pairwise (· ≤ ·) (us.map FlowUpdate.timestamp_ns) →
        u.src_ip ≠ 0 →
        flow_table_lookup hash (applyUpdates hash (flow_table_init size) us) u = some rec →
        1 ≤ rec.packets ∧ rec.first_seen_ns ≤ rec.last_seen_ns) := by
  constructor
  · refine ⟨_, flow_table_triple_same_tuple hash size t 100 pa na 200 pb nb 50 pc nc hsz hsrc,
      rfl, rfl, rfl, rfl, ?_⟩
    exact hp1.trans hp2
  · intro us u rec hmono husrc hlk
    obtain ⟨b2, hok⟩ := applyUpdates_entriesOk hash us (flow_table_init size) 0
      (entriesOk_init size 0) hmono (fun _ _ => Nat.zero_le _)
    exact entriesOk_lookup hash _ b2 u rec hok husrc hlk

/-- Claim C5 counterexample to the unamended statement, at concrete
inputs (all three facts hold for every hash function, since each touches
a single tuple): (i) three updates on a tuple with src_ip = 0 leave
packets = 1 and bytes = 50, because every update re-initialises the
slot; (ii) on a fresh table, lookup of the all-zero tuple already
returns a record with packets = 0; (iii) two updates whose timestamps go
backwards leave first_seen_ns = 100 > last_seen_ns = 5. -/
theorem flow_table_claim_counterexample :
    ((flow_table_lookup hashZero (applyUpdates hashZero (flow_table_init 4)
        [⟨ctupleZ, 100, 1, 10⟩, ⟨ctupleZ, 200, 2, 20⟩, ⟨ctupleZ, 50, 3, 30⟩]) ctupleZ).map
      (fun r => (r.packets, r.bytes))) = some (1, 50) ∧
    ((flow_table_lookup hashZero (flow_table_init 4) ⟨0, 0, 0, 0, 0, 0⟩).map
      (fun r => r.packets)) = some 0 ∧
    ((flow_table_lookup hashZero (applyUpdates hashZero (flow_table_init 4)
        [⟨ctupleW, 1, 1, 100⟩, ⟨ctupleW, 1, 2, 5⟩]) ctupleW).map
      (fun r => (r.first_seen_ns, r.last_seen_ns))) = some (100, 5) := by decide

/-- Witness for C5: the amended theorem applied at the constant hash, a
4-slot table, tuple ctupleW, packet ids 1 < 2 < 3 and timestamps
10 < 20 < 30. -/
theorem flow_table_scenario_and_invariant_witness :
    ((0 : Nat) < 4 ∧ ctupleW.src_ip ≠ 0 ∧ (1 : Nat) < 2 ∧ (2 : Nat) < 3 ∧
      (10 : Nat) < 20 ∧ (20 : Nat) < 30) ∧
    ((∃ rec, flow_table_lookup hashZero (applyUpdates hashZero (flow_table_init 4)
          [⟨ctupleW, 100, 1, 10⟩, ⟨ctupleW, 200, 2, 20⟩, ⟨ctupleW, 50, 3, 30⟩]) ctupleW
            = some rec ∧
        rec.packets = 3 ∧ rec.bytes = 350 ∧
        rec.first_packet_id = 1 ∧ rec.last_packet_id = 3 ∧
        rec.first_packet_id < rec.last_packet_id) ∧
      (∀ us u rec, List.Pairwise (· ≤ ·) (us.map FlowUpdate.timestamp_ns) →
        u.src_ip ≠ 0 →
        flow_table_lookup hashZero (applyUpdates hashZero (flow_table_init 4) us) u
          = some rec →
        1 ≤ rec.packets ∧ rec.first_seen_ns ≤ rec.last_seen_ns)) :=
  ⟨⟨by decide, by decide, by decide, by decide, by decide, by decide⟩,
   flow_table_scenario_and_invariant hashZero 4 ctupleW 1 2 3 10 20 30
     (by decide) (by decide) (by decide) (by decide) (by decide) (by decide)⟩

/-! ### HTTP dissector lemmas -/

lemma sGET : strBytes "GET " = [71, 69, 84, 32] := by decide

lemma sPOST : strBytes "POST " = [80, 79, 83, 84, 32] := by decide

lemma sPUT : strBytes "PUT " = [80, 85, 84, 32] := by decide

lemma sDELETE : strBytes "DELETE " = [68, 69, 76, 69, 84, 69, 32] := by decide

lemma sHEAD : strBytes "HEAD " = [72, 69, 65, 68, 32] := by decide

lemma sOPTIONS : strBytes "OPTIONS " = [79, 80, 84, 73, 79, 78, 83, 32] := by decide

lemma sPATCH : strBytes "PATCH " = [80, 65, 84, 67, 72, 32] := by decide

lemma sHTTP : strBytes "HTTP/" = [72, 84, 84, 80, 47] := by decide

lemma bytesAt_iff (p d : List Nat) : bytesAt p d = true ↔ ∃ t, p ++ t = d := by
  rw [bytesAt, List.isPrefixOf_iff_prefix]
  exact Iff.rfl

/-- A payload starting with "HTTP/" starts with none of the seven
request-method prefixes (they differ within the first two bytes). -/
lemma http_response_excludes_methods (data : List Nat)
    (hh : bytesAt (strBytes "HTTP/") data = true) :
    httpMethods.any (fun m => bytesAt m data) = false := by
  obtain ⟨t, rfl⟩ := (bytesAt_iff _ _).1 hh
  simp [httpMethods, sGET, sPOST, sPUT, sDELETE, sHEAD, sOPTIONS, sPATCH, sHTTP,
    bytesAt, List.isPrefixOf]

/-- Claim C6 (corrected; amended statement).  For every payload of
length at least 7 the HTTP dissector classifies an HTTP request exactly
when one of the prefixes "GET ", "POST ", "PUT ", "DELETE ", "HEAD ",
"OPTIONS ", "PATCH " starts the payload (so "GET " classifies and
"GET/" does not), and an HTTP response exactly when the prefix "HTTP/"
starts it; the parsed record of a request carries the method: the
space-free bytes before the first space.  (The unamended claim, over
every payload, fails because the dissector first rejects any payload
shorter than 7 bytes: see the counterexample.) -/
theorem dissect_http_amended (data : List Nat) (h : 7 ≤ data.length) :
    ((∃ hd, dissect_http data = some hd ∧ hd.is_request = true) ↔
      httpMethods.any (fun m => bytesAt m data) = true) ∧
    ((∃ hd, dissect_http data = some hd ∧ hd.is_request = false) ↔
      bytesAt (strBytes "HTTP/") data = true) ∧
    (∀ hd, dissect_http data = some hd → hd.is_request = true →
      bytesAt (hd.method ++ [SP]) data = true ∧ SP ∉ hd.method) := by
  have hlen : ¬ data.length < 7 := by omega
  by_cases hm : httpMethods.any (fun m => bytesAt m data) = true
  · have hdis : dissect_http data = some ⟨extractMethod data, 0, true⟩ := by
      simp [dissect_http, hlen, hm]
    refine ⟨⟨fun _ => hm, fun _ => ⟨_, hdis, rfl⟩⟩, ⟨?_, ?_⟩, ?_⟩
    · rintro ⟨hd, hEq, hreq⟩
      rw [hdis] at hEq
      obtain rfl := Option.some.inj hEq
      simp at hreq
    · intro hh
      exact absurd hm (by simp [http_response_excludes_methods data hh])
    · intro hd hEq hreq
      rw [hdis] at hEq
      obtain rfl := Option.some.inj hEq
      simp only [httpMethods, List.any_cons, List.any_nil, Bool.or_eq_true,
        Bool.or_false] at hm
      rcases hm with hc | hc | hc | hc | hc | hc | hc <;>
        · obtain ⟨t, rfl⟩ := (bytesAt_iff _ _).1 hc
          simp [extractMethod, findSpace, bytesAt, SP, sGET, sPOST, sPUT, sDELETE,
            sHEAD, sOPTIONS, sPATCH, List.isPrefixOf]
  · have hm2 : httpMethods.any (fun m => bytesAt m data) = false := by
      simpa using hm
    by_cases hh : bytesAt (strBytes "HTTP/") data = true
    · have hdis : dissect_http data = some ⟨[], extractStatus data, false⟩ := by
        simp [dissect_http, hlen, hm2, hh]
      refine ⟨⟨?_, fun hcontra => absurd hcontra (by simp [hm2])⟩,
        ⟨fun _ => hh, fun _ => ⟨_, hdis, rfl⟩⟩, ?_⟩
      · rintro ⟨hd, hEq, hreq⟩
        rw [hdis] at hEq
        obtain rfl := Option.some.inj hEq
        simp at hreq
      · intro hd hEq hreq
        rw [hdis] at hEq
        obtain rfl := Option.some.inj hEq
        simp at hreq
    · have hh2 : bytesAt (strBytes "HTTP/") data = false := by simpa using hh
      have hdis : dissect_http data = none := by simp [dissect_http, hlen, hm2, hh2]
      refine ⟨⟨?_, fun hcontra => absurd hcontra (by simp [hm2])⟩,
        ⟨?_, fun hcontra => absurd hcontra (by simp [hh2])⟩, ?_⟩
      · rintro ⟨hd, hEq, _⟩
        rw [hdis] at hEq
        cases hEq
      · rintro ⟨hd, hEq, _⟩
        rw [hdis] at hEq
        cases hEq
      · intro hd hEq hreq
        rw [hdis] at hEq
        cases hEq

/-- Claim C6 counterexample to the unamended statement: the 5-byte
payload "GET a" begins with "GET " yet dissect_http classifies it as
UNKNOWN, because the dissector rejects any payload shorter than 7
bytes. -/
theorem dissect_http_short_get_counterexample :
    bytesAt (strBytes "GET ") (strBytes "GET a") = true ∧
    (strBytes "GET a").length = 5 ∧
    dissect_http (strBytes "GET a") = none := by decide

/-- Witness for C6: the amended theorem applied to the 7-byte payload
"GET /in". -/
theorem dissect_http_amended_witness :
    7 ≤ (strBytes "GET /in").length ∧
    (((∃ hd, dissect_http (strBytes "GET /in") = some hd ∧ hd.is_request = true) ↔
      httpMethods.any (fun m => bytesAt m (strBytes "GET /in")) = true) ∧
    ((∃ hd, dissect_http (strBytes "GET /in") = some hd ∧ hd.is_request = false) ↔
      bytesAt (strBytes "HTTP/") (strBytes "GET /in") = true) ∧
    (∀ hd, dissect_http (strBytes "GET /in") = some hd → hd.is_request = true →
      bytesAt (hd.method ++ [SP]) (strBytes "GET /in") = true ∧ SP ∉ hd.method)) :=
  ⟨by decide, dissect_http_amended (strBytes "GET /in") (by decide)⟩

end Jarvis
